import Mathlib

/-!
Verification of the scheduling-group subsystem interface of Seastar
(`include/seastar/core/scheduling.hh`), shallowly embedded in Lean 4.

Modelling conventions:
* `unsigned` indices are modelled as `Nat`: the source performs no
  arithmetic on a group index (only copies, comparisons and hashing),
  so no wrap-around can occur and `Nat` is value-faithful.
* A scheduling group is a value type holding one field `_id`, exactly
  as in the source class.
* The shard-local current-group cell (`static thread_local
  scheduling_group sg;` inside `current_scheduling_group_ptr`) is
  modelled by passing the cell value explicitly to the functions that
  read it; its initial value is a separate definition.
* `scheduling_group_key_config` holds two type-erased callbacks stored
  in `std::function` fields.  A default-constructed `std::function` is
  empty, so the callbacks are modelled as `Option` of a state
  transformer over the slot storage; `none` is the empty (never
  assigned) callable.  The storage type is a parameter `Mem`:
  for scalar slots it is the byte list of the slot
  (`List Nat`, one entry per byte), for class slots it is `Option T`
  (`some t` = a constructed object of the payload type, `none` = raw
  or destroyed storage).
-/

set_option linter.unusedVariables false

/-- `constexpr unsigned max_scheduling_groups() { return 16; }`
(scheduling.hh line 31). -/
def max_scheduling_groups : Nat := 16

/-- `class scheduling_group { unsigned _id; ... }`
(scheduling.hh lines 160-203). -/
structure scheduling_group where
  _id : Nat
deriving DecidableEq, Repr

/-- The private constructor `explicit scheduling_group(unsigned id) : _id(id)`
(scheduling.hh line 163). -/
def scheduling_group.of_id (id : Nat) : scheduling_group := ⟨id⟩

/-- The public constexpr default constructor
`constexpr scheduling_group() noexcept : _id(0)` (scheduling.hh line 166). -/
def scheduling_group.default_ctor : scheduling_group := ⟨0⟩

/-- `bool operator==(scheduling_group x) const { return _id == x._id; }`
(scheduling.hh line 169). -/
def scheduling_group.op_eq (a x : scheduling_group) : Bool := a._id == x._id

/-- `bool operator!=(scheduling_group x) const { return _id != x._id; }`
(scheduling.hh line 170). -/
def scheduling_group.op_ne (a x : scheduling_group) : Bool := a._id != x._id

/-- `bool is_main() const { return _id == 0; }` (scheduling.hh line 171). -/
def scheduling_group.is_main (a : scheduling_group) : Bool := a._id == 0

/-- `internal::scheduling_group_index(scheduling_group sg) { return sg._id; }`
(scheduling.hh lines 208-212). -/
def scheduling_group_index (sg : scheduling_group) : Nat := sg._id

/-- `internal::scheduling_group_from_index(unsigned index)
{ return scheduling_group(index); }` (scheduling.hh lines 214-218).
No range check of any kind is performed on `index`. -/
def scheduling_group_from_index (index : Nat) : scheduling_group :=
  scheduling_group.of_id index

/-- The initial value of the shard-local cell behind
`internal::current_scheduling_group_ptr()` (scheduling.hh lines 220-226):
`static thread_local scheduling_group sg;` is initialized by the
constexpr default constructor, before any mutation by the dispatcher. -/
def current_scheduling_group_cell_init : scheduling_group :=
  scheduling_group.default_ctor

/-- `current_scheduling_group() { return *internal::current_scheduling_group_ptr(); }`
(scheduling.hh lines 232-236), with the shard-local cell passed
explicitly. -/
def current_scheduling_group (cell : scheduling_group) : scheduling_group :=
  cell

/-- `default_scheduling_group() { return scheduling_group(); }`
(scheduling.hh lines 238-242). -/
def default_scheduling_group : scheduling_group :=
  scheduling_group.default_ctor

/-- `scheduling_group::active() const { return *this == current_scheduling_group(); }`
(scheduling.hh lines 244-248), with the shard-local cell passed
explicitly. -/
def scheduling_group.active (self : scheduling_group)
    (cell : scheduling_group) : Bool :=
  self.op_eq (current_scheduling_group cell)

/-- `std::hash<seastar::scheduling_group>::operator()`
(scheduling.hh lines 252-259):
`return seastar::internal::scheduling_group_index(sg);`. -/
def hash_scheduling_group (sg : scheduling_group) : Nat :=
  scheduling_group_index sg

/-- `struct scheduling_group_key_config` (scheduling.hh lines 86-91).
The `constructor` and `destructor` fields are `std::function<void (void*)>`
values acting on the slot storage; modelled as optional state
transformers over the storage type `Mem`, `none` being the empty
(default-constructed, never assigned) `std::function`. -/
structure scheduling_group_key_config (Mem : Type) where
  allocation_size : Nat
  alignment : Nat
  constructor : Option (Mem → Mem)
  destructor : Option (Mem → Mem)

/-- Reads the byte list of a scalar slot as the value of the scalar,
little-endian.  Models the read side of
`scheduling_group_get_specific<T>` (scheduling.hh lines 153-154) for a
scalar slot: the returned reference aliases the slot bytes, so the
observed value is their reinterpretation as `T`. -/
def scheduling_group_get_specific_scalar : List Nat → Nat
  | [] => 0
  | b :: bs => b % 256 + 256 * scheduling_group_get_specific_scalar bs

/-- `make_scheduling_group_key_config<T, ConstructorArgs...>(args...)` for
non-scalar `T` (scheduling.hh lines 93-108).  `sizeofT`, `alignofT`
stand for `sizeof(T)`, `alignof(T)`; `make_from_tuple args` stands for
`std::make_from_tuple<T>(args)` applied to the captured argument tuple.
The constructor does `new (p) T(std::make_from_tuple<T>(args));`
(placement-new, ignoring prior storage contents); the destructor does
`static_cast<T*>(p)->~T();` (ends the lifetime of the object at `p`). -/
def make_scheduling_group_key_config_class (T Args : Type)
    (sizeofT alignofT : Nat) (make_from_tuple : Args → T) (args : Args) :
    scheduling_group_key_config (Option T) :=
  { allocation_size := sizeofT
    alignment := alignofT
    constructor := some fun p => some (make_from_tuple args)
    destructor := some fun p => none }

/-- `make_scheduling_group_key_config<T>()` for non-scalar `T`
(scheduling.hh lines 110-125).  The constructor does `new (p) T();`
(`default_construct ()` stands for a default-constructed `T`); the
destructor does `static_cast<T*>(p)->~T();`. -/
def make_scheduling_group_key_config_class_default (T : Type)
    (sizeofT alignofT : Nat) (default_construct : Unit → T) :
    scheduling_group_key_config (Option T) :=
  { allocation_size := sizeofT
    alignment := alignofT
    constructor := some fun p => some (default_construct ())
    destructor := some fun p => none }

/-- `make_scheduling_group_key_config<T, InitialVal>(initial_val)` for
scalar `T` (scheduling.hh lines 127-137).  The constructor body is
`(T)(*p) = initial_val;`: it dereferences the `void*` and casts the
result to a temporary of type `T`, then assigns `initial_val` to that
temporary.  No store through `p` takes place (as written the statement
is ill-formed when instantiated, since a cast yields a prvalue and
`void*` cannot be dereferenced; the evidently intended
`new (p) T(initial_val)` is not what the source says).  The effect on
the slot storage is therefore the identity: `initial_val` never
reaches the slot.  The `destructor` field is never assigned and stays
the empty `std::function`. -/
def make_scheduling_group_key_config_scalar_init
    (sizeofT alignofT : Nat) (initial_val : Nat) :
    scheduling_group_key_config (List Nat) :=
  { allocation_size := sizeofT
    alignment := alignofT
    constructor := some fun p => p
    destructor := none }

/-- `make_scheduling_group_key_config<T>()` for scalar `T`
(scheduling.hh lines 139-149).  The constructor does
`memset(p, 0, sizeof(T));`: all `sizeof(T)` bytes of the slot become
zero regardless of prior contents.  The `destructor` field is never
assigned and stays the empty `std::function`. -/
def make_scheduling_group_key_config_scalar_zero
    (sizeofT alignofT : Nat) :
    scheduling_group_key_config (List Nat) :=
  { allocation_size := sizeofT
    alignment := alignofT
    constructor := some fun p => List.replicate sizeofT 0
    destructor := none }

theorem getD_replicate_zero (n i : Nat) :
    (List.replicate n 0).getD i 0 = 0 := by
  induction n generalizing i with
  | zero => simp [List.getD]
  | succ n ih =>
    cases i with
    | zero => simp [List.replicate]
    | succ i => simp [List.replicate]

/-- C1: the claim states that for a scalar type the constructor stored
by `make_scheduling_group_key_config<T>(v)` assigns `v` into the slot
storage, so that the value later observed through `get_specific`
equals `v`.  The code does not do this: the constructor body
`(T)(*p) = initial_val;` assigns to a temporary and never stores
through `p`, so the slot keeps its prior bytes.  Evaluated at the
failing input `sizeof(T) = 4`, `v = 1`, prior storage all zero bytes:
the storage is unchanged, the observed value is `0`, and `0 ≠ 1`. -/
theorem C1_scalar_initial_value_not_stored :
    ((make_scheduling_group_key_config_scalar_init 4 4 1).constructor
        = (some fun p => p))
    ∧ scheduling_group_get_specific_scalar
        ((fun p => p) (List.replicate 4 0)) = 0
    ∧ (0 : Nat) ≠ 1 :=
  ⟨rfl, rfl, by decide⟩

/-- C2: for every scalar type, the zero-argument
`make_scheduling_group_key_config<T>()` stores a constructor that sets
all `sizeof(T)` bytes of the slot storage to zero (it is `memset`),
and the config records `allocation_size = sizeof(T)` and
`alignment = alignof(T)`. -/
theorem C2_scalar_zero_config (sizeofT alignofT : Nat) (storage : List Nat) :
    (make_scheduling_group_key_config_scalar_zero sizeofT alignofT).allocation_size
        = sizeofT
    ∧ (make_scheduling_group_key_config_scalar_zero sizeofT alignofT).alignment
        = alignofT
    ∧ (make_scheduling_group_key_config_scalar_zero sizeofT alignofT).constructor
        = (some fun p => List.replicate sizeofT 0)
    ∧ ((fun p => List.replicate sizeofT 0) storage).length = sizeofT
    ∧ ∀ i : Nat, ((fun p => List.replicate sizeofT 0) storage).getD i 0 = 0 :=
  ⟨rfl, rfl, rfl, List.length_replicate sizeofT 0,
    fun i => getD_replicate_zero sizeofT i⟩

/-- C3: for every non-scalar type, both class overloads of
`make_scheduling_group_key_config<T>` record
`allocation_size = sizeof(T)` and `alignment = alignof(T)`, install a
constructor that constructs a `T` at the given address (from the
captured arguments via `std::make_from_tuple`, or default-constructed
in the zero-argument overload, in either case regardless of prior
storage state), and install a destructor that invokes the `T`
destructor on the object at that address (the storage holds no
constructed object afterwards). -/
theorem C3_class_config_constructs_and_destroys (T Args : Type)
    (sizeofT alignofT : Nat) (make_from_tuple : Args → T) (args : Args)
    (default_construct : Unit → T) (m : Option T) :
    (make_scheduling_group_key_config_class T Args sizeofT alignofT
        make_from_tuple args).allocation_size = sizeofT
    ∧ (make_scheduling_group_key_config_class T Args sizeofT alignofT
        make_from_tuple args).alignment = alignofT
    ∧ (make_scheduling_group_key_config_class T Args sizeofT alignofT
        make_from_tuple args).constructor
        = (some fun p => some (make_from_tuple args))
    ∧ (make_scheduling_group_key_config_class T Args sizeofT alignofT
        make_from_tuple args).destructor = (some fun p => (none : Option T))
    ∧ (make_scheduling_group_key_config_class_default T sizeofT alignofT
        default_construct).allocation_size = sizeofT
    ∧ (make_scheduling_group_key_config_class_default T sizeofT alignofT
        default_construct).alignment = alignofT
    ∧ (make_scheduling_group_key_config_class_default T sizeofT alignofT
        default_construct).constructor
        = (some fun p => some (default_construct ()))
    ∧ (make_scheduling_group_key_config_class_default T sizeofT alignofT
        default_construct).destructor = (some fun p => (none : Option T)) :=
  ⟨rfl, rfl, rfl, rfl, rfl, rfl, rfl, rfl⟩

/-- C4: `sg.active()` returns true if and only if `sg` equals
`current_scheduling_group()` on the calling shard, for every value of
the shard-local current-group cell. -/
theorem C4_active_iff_equals_current (sg cell : scheduling_group) :
    sg.active cell = true ↔ sg = current_scheduling_group cell := by
  cases sg with
  | mk a =>
    cases cell with
    | mk b =>
      simp [scheduling_group.active, scheduling_group.op_eq,
        current_scheduling_group, scheduling_group.mk.injEq]

/-- C5: `a == b` holds if and only if the indices of `a` and `b` are
equal; the standard hash of a scheduling group is exactly its index,
hence depends only on the index, and two identities with equal index
have equal hashes. -/
theorem C5_eq_and_hash_are_index_functions (a b : scheduling_group) :
    (a.op_eq b = true ↔ a._id = b._id)
    ∧ hash_scheduling_group a = a._id
    ∧ (a._id = b._id → hash_scheduling_group a = hash_scheduling_group b) := by
  refine ⟨?_, rfl, ?_⟩
  · simp [scheduling_group.op_eq]
  · intro h
    simp [hash_scheduling_group, scheduling_group_index, h]

/-- Witness for C5 at the concrete identities with index 2: the
hypothesis of the third conjunct (equal indices) holds and the hashes
agree. -/
theorem C5_witness :
    hash_scheduling_group ⟨2⟩ = hash_scheduling_group ⟨2⟩ :=
  (C5_eq_and_hash_are_index_functions ⟨2⟩ ⟨2⟩).2.2 rfl

/-- C6: the default-constructed scheduling group has index 0,
`is_main()` returns true for a scheduling group exactly when its index
is 0, and `default_scheduling_group()` returns an identity equal to
the default-constructed one. -/
theorem C6_default_group_is_main :
    scheduling_group.default_ctor._id = 0
    ∧ (∀ sg : scheduling_group, sg.is_main = true ↔ sg._id = 0)
    ∧ default_scheduling_group = scheduling_group.default_ctor := by
  refine ⟨rfl, ?_, rfl⟩
  intro sg
  simp [scheduling_group.is_main]

/-- C7: the shard-local current-group cell is initialized to the
default identity: before any mutation by the dispatcher,
`current_scheduling_group()` equals `default_scheduling_group()`,
whose index is 0. -/
theorem C7_current_cell_initialized_to_default :
    current_scheduling_group current_scheduling_group_cell_init
        = default_scheduling_group
    ∧ (current_scheduling_group current_scheduling_group_cell_init)._id = 0 :=
  ⟨rfl, rfl⟩

/-- C8: both scalar overloads of `make_scheduling_group_key_config`
leave the `destructor` field of the returned config unset (the empty,
default-constructed `std::function`): no destructor callback is
installed for scalar slots. -/
theorem C8_scalar_destructor_unset (sizeofT alignofT initial_val : Nat) :
    (make_scheduling_group_key_config_scalar_init sizeofT alignofT
        initial_val).destructor = none
    ∧ (make_scheduling_group_key_config_scalar_zero sizeofT
        alignofT).destructor = none :=
  ⟨rfl, rfl⟩

/-- C9: `max_scheduling_groups()` is a constant function returning
exactly 16, the hard bound on group indices. -/
theorem C9_max_scheduling_groups_is_16 : max_scheduling_groups = 16 :=
  rfl

/-- C10: for every unsigned index `i`,
`scheduling_group_index(scheduling_group_from_index(i)) = i`, and for
every scheduling group `sg`,
`scheduling_group_from_index(scheduling_group_index(sg)) = sg`;
`scheduling_group_from_index` performs no range check, so the round
trip holds even for `i ≥ max_scheduling_groups()`. -/
theorem C10_index_round_trip :
    (∀ i : Nat, scheduling_group_index (scheduling_group_from_index i) = i)
    ∧ (∀ sg : scheduling_group,
        scheduling_group_from_index (scheduling_group_index sg) = sg)
    ∧ (∀ i : Nat, max_scheduling_groups ≤ i →
        scheduling_group_index (scheduling_group_from_index i) = i) := by
  refine ⟨fun i => rfl, ?_, fun i h => rfl⟩
  intro sg
  cases sg with
  | mk a => rfl

/-- Witness for C10 at the concrete out-of-range index 20: the
hypothesis `max_scheduling_groups() ≤ 20` holds and the round trip
still returns 20. -/
theorem C10_witness :
    max_scheduling_groups ≤ 20
    ∧ scheduling_group_index (scheduling_group_from_index 20) = 20 :=
  ⟨by decide, C10_index_round_trip.2.2 20 (by decide)⟩
